import Mathlib

/-!
Verification of the TradelineAI credit-scoring / performance-metrics core
(`models.py`: `TradelinePerformance.record_tradeline_performance`,
`Repayment.is_late`, `AIAgent.update_credit_score`,
`AIAgent.get_credit_score_trend`) as a shallow embedding.

Conventions of the embedding:
* Python floats (money amounts, rates) are modelled as `ℚ`.
* `datetime` values are modelled as `Int` (units of one day); `timedelta(days=30)` is `30`.
* Nullable columns / `None` are `Option _`.
* Python exceptions are modelled with `Except PyErr`; an unguarded division
  would raise `ZeroDivisionError`, an access to a missing attribute raises
  `AttributeError`.
* The ORM store is a `DB` record of lists; `query.get` / `filter_by` become
  `List.find?` / `List.filter`.
-/

namespace TradelineAI

/-- Python runtime errors that the modelled code can raise. -/
inductive PyErr where
  | attributeError
  | zeroDivisionError
deriving DecidableEq, Repr

/-- Python `/` on floats: raises `ZeroDivisionError` on a zero denominator,
otherwise divides. -/
def pydiv (a b : ℚ) : Except PyErr ℚ :=
  if b = 0 then Except.error PyErr.zeroDivisionError else Except.ok (a / b)

/-- `Tradeline` (models.py): the columns read by the scoring/performance core.
Marketplace columns (owner, pricing, rental flags, …) are outside the scoring
core's scope and not read by the embedded operations. -/
structure Tradeline where
  id : Nat
  credit_limit : ℚ
  available_limit : ℚ
  interest_rate : ℚ
  issuer : String
  account_type : String
deriving DecidableEq, Repr

/-- `AIAgentAllocation` (models.py): allocation of a tradeline to an AI agent. -/
structure AIAgentAllocation where
  id : Nat
  agent_id : Nat
  tradeline_id : Nat
  allocation_date : Int
  credit_limit : ℚ
  is_active : Bool
deriving DecidableEq, Repr

/-- `Transaction` (models.py): a transaction made by an AI agent on an allocation. -/
structure Transaction where
  id : Nat
  agent_id : Nat
  tradeline_allocation_id : Nat
  amount : ℚ
  transaction_date : Int
  status : String
  balance_after : Option ℚ
deriving DecidableEq, Repr

/-- `Repayment` (models.py): a repayment by an AI agent for tradeline
transactions.  `due_date`/`payment_date` are `DateTime` columns that may be
absent in memory (`payment_date` is nullable). -/
structure Repayment where
  id : Nat
  agent_id : Nat
  tradeline_allocation_id : Nat
  amount : ℚ
  due_date : Option Int
  payment_date : Option Int
  status : String
deriving DecidableEq, Repr

/-- `Repayment.is_late` (models.py lines 345-349):
`if self.payment_date and self.due_date: return self.payment_date > self.due_date`
`return False`.  (`datetime` objects are always truthy, `None` is falsy.) -/
def Repayment.is_late (r : Repayment) : Bool :=
  match r.payment_date, r.due_date with
  | some p, some d => p > d
  | _, _ => false

/-- The `Repayment` class defines NO `days_overdue` method — only the distinct
`DefiRepayment` class (models.py line 512) has one.  Hence the attribute access
`r.days_overdue` on a `Repayment` instance raises `AttributeError`. -/
def Repayment.days_overdue (_ : Repayment) : Except PyErr Int :=
  Except.error PyErr.attributeError

/-- `sum([r.days_overdue() for r in late_repayments])` (models.py line 621):
the comprehension calls `days_overdue` on each element left to right; the
first call that raises aborts the whole expression. -/
def sum_days_overdue : List Repayment → Except PyErr Int
  | [] => Except.ok 0
  | r :: rs =>
    (r.days_overdue).bind fun d =>
    (sum_days_overdue rs).bind fun s =>
    Except.ok (d + s)

/-- The backing store, as seen through the ORM queries of the scoring core. -/
structure DB where
  tradelines : List Tradeline
  allocations : List AIAgentAllocation
  transactions : List Transaction
  repayments : List Repayment
deriving Repr

/-- `Tradeline.query.get(tradeline_id)` (models.py line 570). -/
def find_tradeline (db : DB) (tid : Nat) : Option Tradeline :=
  db.tradelines.find? (fun t => t.id == tid)

/-- `AIAgentAllocation.query.filter_by(tradeline_id=tradeline_id, is_active=True).all()`
(models.py line 576). -/
def active_allocations (db : DB) (tid : Nat) : List AIAgentAllocation :=
  db.allocations.filter (fun a => a.tradeline_id == tid && a.is_active)

/-- `allocation_ids = [a.id for a in allocations]` (models.py line 577). -/
def active_allocation_ids (db : DB) (tid : Nat) : List Nat :=
  (active_allocations db tid).map (fun a => a.id)

/-- The completed transactions on the tradeline's active allocations
(models.py lines 587-590). -/
def completed_transactions (db : DB) (tid : Nat) : List Transaction :=
  db.transactions.filter
    (fun t => (active_allocation_ids db tid).contains t.tradeline_allocation_id
      && t.status == "completed")

/-- `total_balance = sum([t.amount for t in transactions])` (models.py line 592). -/
def total_balance (db : DB) (tid : Nat) : ℚ :=
  ((completed_transactions db tid).map (fun t => t.amount)).sum

/-- Completed transactions of the last 30 days (models.py lines 598-602). -/
def recent_transactions (db : DB) (now : Int) (tid : Nat) : List Transaction :=
  db.transactions.filter
    (fun t => (active_allocation_ids db tid).contains t.tradeline_allocation_id
      && t.status == "completed" && now - 30 ≤ t.transaction_date)

/-- `metrics['transaction_volume']` (models.py line 605). -/
def transaction_volume (db : DB) (now : Int) (tid : Nat) : ℚ :=
  ((recent_transactions db now tid).map (fun t => t.amount)).sum

/-- Repayments on the active allocations with status `paid` or `late`
(models.py lines 609-612). -/
def eligible_repayments (db : DB) (tid : Nat) : List Repayment :=
  db.repayments.filter
    (fun r => (active_allocation_ids db tid).contains r.tradeline_allocation_id
      && (r.status == "paid" || r.status == "late"))

/-- `metrics['total_repayments']` (models.py line 614). -/
def total_repayments_amount (db : DB) (tid : Nat) : ℚ :=
  ((eligible_repayments db tid).map (fun r => r.amount)).sum

/-- `metrics['repayments_on_time']` (models.py line 615). -/
def repayments_on_time_count (db : DB) (tid : Nat) : Nat :=
  ((eligible_repayments db tid).filter
    (fun r => r.status == "paid" && !r.is_late)).length

/-- `late_repayments = [r for r in repayments if r.status == 'late' or r.is_late()]`
(models.py lines 616, 620). -/
def late_repayments (db : DB) (tid : Nat) : List Repayment :=
  (eligible_repayments db tid).filter (fun r => r.status == "late" || r.is_late)

/-- One `TradelinePerformance` snapshot row (models.py lines 535-561). -/
structure TradelinePerformance where
  tradeline_id : Nat
  current_balance : ℚ
  available_credit : ℚ
  utilization_rate : ℚ
  transaction_count : Nat
  transaction_volume : ℚ
  avg_transaction_amount : ℚ
  total_repayments : ℚ
  repayments_on_time : Nat
  repayments_late : Nat
  payment_ratio : ℚ
  risk_score : ℚ
  days_delinquent : Int
  interest_accrued : ℚ
deriving DecidableEq, Repr

/-- `TradelinePerformance.record_tradeline_performance` (models.py lines 564-660).
The `Except` layer carries the Python exceptions the body can raise: each `/`
is `pydiv`, and the `r.days_overdue()` calls go through
`Repayment.days_overdue` (which raises, the method being absent on
`Repayment`).  Returning `Except.ok none` models the early `return None`
paths, in which no record is added to the session; `Except.ok (some p)`
models creating and committing the snapshot `p`. -/
def record_tradeline_performance (db : DB) (now : Int) (tid : Nat) :
    Except PyErr (Option TradelinePerformance) :=
  match find_tradeline db tid with
  | none => Except.ok none
  | some tradeline =>
    if (active_allocation_ids db tid).isEmpty then Except.ok none
    else
      (if tradeline.credit_limit > 0 then
          pydiv (total_balance db tid) tradeline.credit_limit
        else Except.ok 0).bind fun utilization_rate =>
      (if (recent_transactions db now tid).length > 0 then
          pydiv (transaction_volume db now tid) ((recent_transactions db now tid).length : ℚ)
        else Except.ok 0).bind fun avg_transaction_amount =>
      (if total_balance db tid > 0 then
          pydiv (total_repayments_amount db tid) (total_balance db tid)
        else Except.ok 1).bind fun payment_ratio =>
      (if (late_repayments db tid).isEmpty then Except.ok 0
        else sum_days_overdue (late_repayments db tid)).bind fun total_days_late =>
      (pydiv tradeline.interest_rate 100).bind fun monthly_rate_part =>
      (pydiv (total_balance db tid * monthly_rate_part) 365).bind fun daily_interest =>
      Except.ok (some
        { tradeline_id := tid
          current_balance := total_balance db tid
          available_credit := tradeline.credit_limit - total_balance db tid
          utilization_rate := utilization_rate
          transaction_count := (recent_transactions db now tid).length
          transaction_volume := transaction_volume db now tid
          avg_transaction_amount := avg_transaction_amount
          total_repayments := total_repayments_amount db tid
          repayments_on_time := repayments_on_time_count db tid
          repayments_late := (late_repayments db tid).length
          payment_ratio := payment_ratio
          risk_score := utilization_rate * 30
            + min 40 (((late_repayments db tid).length : ℚ) * 10)
            + max 0 (30 - payment_ratio * 30)
          days_delinquent := total_days_late
          interest_accrued := daily_interest * 30 })

/-- The snapshot that `record_tradeline_performance` stores when it succeeds,
written with the (guarded, hence total) divisions evaluated. -/
def mk_perf (db : DB) (now : Int) (tid : Nat) (tradeline : Tradeline) :
    TradelinePerformance :=
  { tradeline_id := tid
    current_balance := total_balance db tid
    available_credit := tradeline.credit_limit - total_balance db tid
    utilization_rate :=
      if tradeline.credit_limit > 0 then total_balance db tid / tradeline.credit_limit else 0
    transaction_count := (recent_transactions db now tid).length
    transaction_volume := transaction_volume db now tid
    avg_transaction_amount :=
      if (recent_transactions db now tid).length > 0 then
        transaction_volume db now tid / ((recent_transactions db now tid).length : ℚ)
      else 0
    total_repayments := total_repayments_amount db tid
    repayments_on_time := repayments_on_time_count db tid
    repayments_late := (late_repayments db tid).length
    payment_ratio :=
      if total_balance db tid > 0 then
        total_repayments_amount db tid / total_balance db tid
      else 1
    risk_score :=
      (if tradeline.credit_limit > 0 then total_balance db tid / tradeline.credit_limit else 0) * 30
      + min 40 (((late_repayments db tid).length : ℚ) * 10)
      + max 0 (30 - (if total_balance db tid > 0 then
          total_repayments_amount db tid / total_balance db tid else 1) * 30)
    days_delinquent := 0
    interest_accrued := total_balance db tid * (tradeline.interest_rate / 100) / 365 * 30 }

/-! ### Credit Scoring Engine (`AIAgent`) -/

/-- One entry of the agent's serialized score history.  The spec's data model:
"ordered append-only score history (list of \x7btimestamp, score, components\x7d)". -/
structure HistoryEntry where
  timestamp : Int
  score : Int
  components : List (String × Int)
deriving DecidableEq, Repr

/-- The result shape of the scoring function: "\x7bscore, component breakdown\x7d". -/
structure ScoreData where
  score : Int
  components : List (String × Int)
deriving DecidableEq, Repr

/-- Possible states of the serialized `credit_score_history` Text column:
falsy (`None` or empty string), a JSON encoding of an entry list, or a
non-JSON string.  `json.dumps`/`json.loads` round-trip a list exactly, so the
serialization is kept abstract. -/
inductive HistoryField where
  | empty
  | valid (entries : List HistoryEntry)
  | malformed
deriving DecidableEq, Repr

/-- `json.loads(self.credit_score_history) if self.credit_score_history else []`
wrapped in `try/except (JSONDecodeError, TypeError)` with fallback `[]`
(models.py lines 250-253 and 271-274). -/
def parse_history : HistoryField → List HistoryEntry
  | HistoryField.empty => []
  | HistoryField.valid l => l
  | HistoryField.malformed => []

/-- `AIAgent` (models.py lines 155-186): the columns read/written by the
scoring core.  Wallet, BNS and A2A columns are outside the scoring scope. -/
structure AIAgent where
  id : Nat
  created_date : Int
  credit_score : Int
  credit_score_updated : Option Int
  credit_score_history : HistoryField
deriving DecidableEq, Repr

/-- ORM relationship `AIAgent.tradeline_allocations` (backref on `agent_id`). -/
def AIAgent.tradeline_allocations (db : DB) (a : AIAgent) : List AIAgentAllocation :=
  db.allocations.filter (fun al => al.agent_id == a.id)

/-- ORM relationship `AIAgent.transactions`. -/
def AIAgent.transactions (db : DB) (a : AIAgent) : List Transaction :=
  db.transactions.filter (fun t => t.agent_id == a.id)

/-- ORM relationship `AIAgent.repayments`. -/
def AIAgent.repayments (db : DB) (a : AIAgent) : List Repayment :=
  db.repayments.filter (fun r => r.agent_id == a.id)

/-- `allocation.tradeline` relationship (join on `tradeline_id`). -/
def allocation_tradeline (db : DB) (al : AIAgentAllocation) : Option Tradeline :=
  db.tradelines.find? (fun t => t.id == al.tradeline_id)

/-- `tx.allocation` relationship (join on `tradeline_allocation_id`). -/
def transaction_allocation (db : DB) (tx : Transaction) : Option AIAgentAllocation :=
  db.allocations.find? (fun al => al.id == tx.tradeline_allocation_id)

/-- One tradeline entry of `agent_data` (models.py lines 208-217). -/
structure TradelineSummary where
  id : Nat
  credit_limit : ℚ
  type : Option String
  issuer : Option String
  opened_date : Int
deriving DecidableEq, Repr

/-- One transaction entry of `agent_data` (models.py lines 218-227). -/
structure TransactionSummary where
  id : Nat
  amount : ℚ
  tradeline_id : Option Nat
  transaction_date : Int
  status : String
  balance_after : Option ℚ
deriving DecidableEq, Repr

/-- One repayment entry of `agent_data` (models.py lines 229-238). -/
structure RepaymentSummary where
  id : Nat
  amount : ℚ
  due_date : Option Int
  payment_date : Option Int
  is_late : Bool
deriving DecidableEq, Repr

/-- The `agent_data` dictionary built by `update_credit_score`
(models.py lines 205-239). -/
structure AgentData where
  id : Nat
  created_at : Int
  tradelines : List TradelineSummary
  transactions : List TransactionSummary
  repayments : List RepaymentSummary
deriving DecidableEq, Repr

/-- `'is_late': rep.payment_date > rep.due_date if rep.payment_date and rep.due_date else False`
(models.py line 235): the per-repayment lateness flag computed inline by
`update_credit_score`. -/
def repayment_late_flag (r : Repayment) : Bool :=
  match r.payment_date, r.due_date with
  | some p, some d => p > d
  | _, _ => false

/-- The repayment dictionary of `agent_data` (models.py lines 230-236). -/
def repayment_summary (r : Repayment) : RepaymentSummary :=
  { id := r.id
    amount := r.amount
    due_date := r.due_date
    payment_date := r.payment_date
    is_late := repayment_late_flag r }

/-- The tradeline dictionary of `agent_data` (models.py lines 209-215). -/
def tradeline_summary (db : DB) (al : AIAgentAllocation) : TradelineSummary :=
  { id := al.tradeline_id
    credit_limit := al.credit_limit
    type := (allocation_tradeline db al).map (fun t => t.account_type)
    issuer := (allocation_tradeline db al).map (fun t => t.issuer)
    opened_date := al.allocation_date }

/-- The transaction dictionary of `agent_data` (models.py lines 219-226). -/
def transaction_summary (db : DB) (tx : Transaction) : TransactionSummary :=
  { id := tx.id
    amount := tx.amount
    tradeline_id := (transaction_allocation db tx).map (fun al => al.tradeline_id)
    transaction_date := tx.transaction_date
    status := tx.status
    balance_after := tx.balance_after }

/-- `agent_data` (models.py lines 205-239). -/
def build_agent_data (db : DB) (a : AIAgent) : AgentData :=
  { id := a.id
    created_at := a.created_date
    tradelines := (a.tradeline_allocations db).map (tradeline_summary db)
    transactions := (a.transactions db).map (transaction_summary db)
    repayments := (a.repayments db).map repayment_summary }

/-- Modelled from the spec: `AgentCreditScoring.calculate_agent_credit_score`
lives in `modules.agent_credit`, which is not in the repository sources.  The
spec fixes only its contract — it "returns \x7bscore, component breakdown\x7d",
with a baseline score of 600 for an agent with no activity, and warns that the
exact weighted formula is an open question that must not be guessed.  The
embedding therefore returns the baseline shape; none of the verified claims
depends on the numeric score value. -/
def calculate_agent_credit_score (_ : AgentData) : ScoreData :=
  { score := 600, components := [] }

/-- Modelled from the spec: `AgentCreditScoring.track_agent_score_history`
(in the missing `modules.agent_credit`) appends the returned score data to the
history — "the returned score_data is appended to history via a
history-tracking function"; "Score history is strictly append-only"; the
source does not cap the length. -/
def track_agent_score_history (_ : String) (sd : ScoreData)
    (history : List HistoryEntry) (now : Int) : List HistoryEntry :=
  history ++ [{ timestamp := now, score := sd.score, components := sd.components }]

/-- `AIAgent.update_credit_score` (models.py lines 188-259): builds
`agent_data`, computes the score, overwrites `credit_score` and
`credit_score_updated`, parses the existing history (malformed → `[]`),
appends the new entry and re-serializes it.  Returns the updated agent row
together with the returned `score_data`. -/
def AIAgent.update_credit_score (db : DB) (now : Int) (a : AIAgent) :
    AIAgent × ScoreData :=
  let agent_data := build_agent_data db a
  let score_data := calculate_agent_credit_score agent_data
  let history := parse_history a.credit_score_history
  let history2 := track_agent_score_history (toString a.id) score_data history now
  ({ a with
      credit_score := score_data.score
      credit_score_updated := some now
      credit_score_history := HistoryField.valid history2 },
    score_data)

/-- `N` successive calls to `update_credit_score` on the same agent row. -/
def update_credit_score_iter (db : DB) (now : Int) : Nat → AIAgent → AIAgent
  | 0, a => a
  | n + 1, a => update_credit_score_iter db now n ((a.update_credit_score db now).1)

/-- Modelled from the spec: the trend summary returned by
`AgentCreditScoring.analyze_score_trend` (missing `modules.agent_credit`):
"computes a trend (direction/magnitude) from consecutive score deltas". -/
structure TrendSummary where
  direction : String
  change : Int
deriving DecidableEq, Repr

/-- Consecutive score deltas of a history: entry `i+1` minus entry `i`. -/
def score_deltas (l : List HistoryEntry) : List Int :=
  List.zipWith (fun b a => b.score - a.score) (l.drop 1) l

/-- Modelled from the spec: `AgentCreditScoring.analyze_score_trend` computes
direction and magnitude from the consecutive score deltas. -/
def analyze_score_trend (l : List HistoryEntry) : TrendSummary :=
  let change := (score_deltas l).sum
  { direction :=
      if change > 0 then "improving" else if change < 0 then "declining" else "stable"
    change := change }

/-- `AIAgent.get_credit_score_trend` (models.py lines 261-280): parses the
history (malformed → `[]`), returns `None` when
`not history or len(history) < 2`, otherwise delegates to
`analyze_score_trend`. -/
def AIAgent.get_credit_score_trend (a : AIAgent) : Option TrendSummary :=
  let history := parse_history a.credit_score_history
  if history.isEmpty || history.length < 2 then none
  else some (analyze_score_trend history)

/-! ### Concrete test fixtures -/

/-- The spec's scenario repayment: `due_date=2024-01-01`, `payment_date=2024-01-15`
(as days since the Unix epoch: 19723 and 19737), paid 14 days late. -/
def repayment_c1 : Repayment :=
  { id := 1, agent_id := 1, tradeline_allocation_id := 1, amount := 500
    due_date := some 19723, payment_date := some 19737, status := "paid" }

def tradeline_ok : Tradeline :=
  { id := 1, credit_limit := 10000, available_limit := 7500, interest_rate := 12
    issuer := "Chase", account_type := "credit_card" }

def allocation_ok : AIAgentAllocation :=
  { id := 1, agent_id := 1, tradeline_id := 1, allocation_date := 19000
    credit_limit := 10000, is_active := true }

/-- A store holding the late `repayment_c1` on an active allocation. -/
def db_c1 : DB :=
  { tradelines := [tradeline_ok], allocations := [allocation_ok]
    transactions := [], repayments := [repayment_c1] }

/-- The spec's scenario store: `credit_limit=10000`, one completed
transaction of 2500, no repayments. -/
def db_ok : DB :=
  { tradelines := [tradeline_ok]
    allocations := [allocation_ok]
    transactions := [{ id := 1, agent_id := 1, tradeline_allocation_id := 1
                       amount := 2500, transaction_date := 0
                       status := "completed", balance_after := some 2500 }]
    repayments := [] }

def perf_ok : TradelinePerformance := mk_perf db_ok 0 1 tradeline_ok

/-- A store whose balance (40000) exceeds the credit limit (10000). -/
def db_over : DB :=
  { tradelines := [tradeline_ok]
    allocations := [allocation_ok]
    transactions := [{ id := 1, agent_id := 1, tradeline_allocation_id := 1
                       amount := 40000, transaction_date := 0
                       status := "completed", balance_after := some 40000 }]
    repayments := [] }

def perf_over : TradelinePerformance := mk_perf db_over 0 1 tradeline_ok

def tradeline_zero : Tradeline :=
  { id := 1, credit_limit := 0, available_limit := 0, interest_rate := 0
    issuer := "Chase", account_type := "credit_card" }

/-- A store whose tradeline has `credit_limit = 0` and no activity. -/
def db_zero : DB :=
  { tradelines := [tradeline_zero], allocations := [allocation_ok]
    transactions := [], repayments := [] }

def perf_zero : TradelinePerformance := mk_perf db_zero 0 1 tradeline_zero

/-- A store whose tradeline has no allocation at all. -/
def db_noalloc : DB :=
  { tradelines := [tradeline_ok], allocations := []
    transactions := [], repayments := [] }

/-- An agent whose `credit_score_history` column holds a non-JSON string. -/
def agent_malformed : AIAgent :=
  { id := 7, created_date := 0, credit_score := 600
    credit_score_updated := none
    credit_score_history := HistoryField.malformed }

/-- An empty backing store (agent with no allocations/transactions/repayments). -/
def db_nil : DB := { tradelines := [], allocations := [], transactions := [], repayments := [] }

/-- An agent with a two-entry score history. -/
def agent_two_entries : AIAgent :=
  { id := 8, created_date := 0, credit_score := 620
    credit_score_updated := some 10
    credit_score_history := HistoryField.valid
      [{ timestamp := 0, score := 600, components := [] },
       { timestamp := 10, score := 620, components := [] }] }

/-- A repayment whose `payment_date` is missing. -/
def repayment_nodate : Repayment :=
  { id := 2, agent_id := 1, tradeline_allocation_id := 1, amount := 250
    due_date := some 19723, payment_date := none, status := "scheduled" }

/-! ### Helper lemmas -/

lemma except_bind_ok {ε α β : Type} (a : α) (f : α → Except ε β) :
    (Except.ok a : Except ε α).bind f = f a := rfl

lemma except_bind_error {ε α β : Type} (e : ε) (f : α → Except ε β) :
    (Except.error e : Except ε α).bind f = Except.error e := rfl

lemma pydiv_of_ne (a : ℚ) {b : ℚ} (h : b ≠ 0) : pydiv a b = Except.ok (a / b) := by
  simp [pydiv, h]

/-- A division guarded by a positivity test on its denominator never raises. -/
lemma guarded_pydiv (c : Prop) [Decidable c] (a b d : ℚ) (h : c → b ≠ 0) :
    (if c then pydiv a b else Except.ok d) =
      Except.ok (if c then a / b else d) := by
  split_ifs with hc
  · exact pydiv_of_ne a (h hc)
  · rfl

lemma sum_days_overdue_nonempty {l : List Repayment} (h : l ≠ []) :
    sum_days_overdue l = Except.error PyErr.attributeError := by
  cases l with
  | nil => exact absurd rfl h
  | cons r rs => rfl

/-- Master characterization of `record_tradeline_performance`: it returns
`none` when the tradeline is missing or has no active allocation, raises
`AttributeError` when a late repayment exists (the `days_overdue` call), and
otherwise stores `mk_perf`. -/
lemma record_eq (db : DB) (now : Int) (tid : Nat) :
    record_tradeline_performance db now tid =
      match find_tradeline db tid with
      | none => Except.ok none
      | some tradeline =>
        if (active_allocation_ids db tid).isEmpty then Except.ok none
        else if (late_repayments db tid).isEmpty then
          Except.ok (some (mk_perf db now tid tradeline))
        else Except.error PyErr.attributeError := by
  unfold record_tradeline_performance
  cases hf : find_tradeline db tid with
  | none => rfl
  | some t =>
    by_cases h1 : (active_allocation_ids db tid).isEmpty
    · simp only [if_pos h1]
    · simp only [if_neg h1]
      rw [guarded_pydiv _ _ _ _ (fun hc => ne_of_gt hc), except_bind_ok]
      rw [guarded_pydiv _ _ _ _
        (fun hc => Nat.cast_ne_zero.mpr hc.ne'), except_bind_ok]
      rw [guarded_pydiv _ _ _ _ (fun hc => ne_of_gt hc), except_bind_ok]
      by_cases h2 : (late_repayments db tid).isEmpty
      · rw [if_pos h2, except_bind_ok]
        rw [pydiv_of_ne _ (by norm_num : (100 : ℚ) ≠ 0), except_bind_ok]
        rw [pydiv_of_ne _ (by norm_num : (365 : ℚ) ≠ 0), except_bind_ok]
        rw [if_pos h2]
        rfl
      · rw [if_neg h2,
          sum_days_overdue_nonempty (by simpa [List.isEmpty_iff] using h2),
          except_bind_error, if_neg h2]

/-- A successful result determines the snapshot as `mk_perf`. -/
lemma record_ok_some {db : DB} {now : Int} {tid : Nat} {p : TradelinePerformance}
    (h : record_tradeline_performance db now tid = Except.ok (some p)) :
    ∃ t, find_tradeline db tid = some t ∧ p = mk_perf db now tid t := by
  rw [record_eq] at h
  split at h
  · simp at h
  · rename_i t hf
    split_ifs at h with h1 h2
    case _ => simp at h
    case _ => exact ⟨t, hf, ((Option.some.injEq _ _).mp ((Except.ok.injEq _ _).mp h)).symm⟩

lemma record_db_ok : record_tradeline_performance db_ok 0 1 = Except.ok (some perf_ok) := by
  rw [record_eq]; rfl

lemma record_db_zero : record_tradeline_performance db_zero 0 1 = Except.ok (some perf_zero) := by
  rw [record_eq]; rfl

lemma alloc_ids_isEmpty (db : DB) (tid : Nat) :
    (active_allocation_ids db tid).isEmpty = (active_allocations db tid).isEmpty := by
  unfold active_allocation_ids
  cases active_allocations db tid <;> rfl

/-- A successful result satisfies the risk-score formula over its own stored
fields. -/
lemma record_ok_risk_formula {db : DB} {now : Int} {tid : Nat}
    {p : TradelinePerformance}
    (hp : record_tradeline_performance db now tid = Except.ok (some p)) :
    p.risk_score = p.utilization_rate * 30
      + min 40 ((p.repayments_late : ℚ) * 10)
      + max 0 (30 - p.payment_ratio * 30) := by
  obtain ⟨t, hf, rfl⟩ := record_ok_some hp
  rfl

lemma total_balance_db_ok : total_balance db_ok 1 = 2500 := by
  simp [total_balance, completed_transactions, active_allocation_ids,
    active_allocations, db_ok, allocation_ok]

/-! ### Claims -/

/-- C1 (code bug): for the spec's witness repayment (due 2024-01-01, paid
2024-01-15), `is_late()` is indeed `True`, but `Repayment` has no
`days_overdue` method — only the unrelated `DefiRepayment` class defines one —
so the call `r.days_overdue()` inside `record_tradeline_performance` raises
`AttributeError`, and the aggregation raises instead of computing
`days_delinquent = 14`. -/
theorem c1_late_repayment_raises_attribute_error :
    repayment_c1.is_late = true ∧
    repayment_c1.days_overdue = Except.error PyErr.attributeError ∧
    record_tradeline_performance db_c1 19800 1 = Except.error PyErr.attributeError := by
  refine ⟨rfl, rfl, ?_⟩
  rw [record_eq]
  rfl

/-- C2: every snapshot that `record_tradeline_performance` stores has
`risk_score = utilization_rate*30 + min(40, repayments_late*10) +
max(0, 30 - payment_ratio*30)`, and the late-payment component
`min(40, late_count*10)` is capped at 40 for every late count ≥ 4. -/
theorem c2_risk_score_formula :
    (∀ (db : DB) (now : Int) (tid : Nat) (p : TradelinePerformance),
      record_tradeline_performance db now tid = Except.ok (some p) →
      p.risk_score = p.utilization_rate * 30
        + min 40 ((p.repayments_late : ℚ) * 10)
        + max 0 (30 - p.payment_ratio * 30)) ∧
    (∀ n : Nat, 4 ≤ n → min (40 : ℚ) ((n : ℚ) * 10) = 40) := by
  constructor
  · intro db now tid p hp
    exact record_ok_risk_formula hp
  · intro n hn
    have h4 : (4 : ℚ) ≤ (n : ℚ) := by exact_mod_cast hn
    exact min_eq_left (by linarith)

/-- Witness for C2: the concrete store with limit 10000 and one completed
2500 transaction yields a snapshot satisfying the formula, and the
late-component caps at 40 for late count 10. -/
theorem c2_witness :
    record_tradeline_performance db_ok 0 1 = Except.ok (some perf_ok) ∧
    perf_ok.risk_score = perf_ok.utilization_rate * 30
      + min 40 ((perf_ok.repayments_late : ℚ) * 10)
      + max 0 (30 - perf_ok.payment_ratio * 30) ∧
    min (40 : ℚ) (((10 : Nat) : ℚ) * 10) = 40 :=
  ⟨record_db_ok,
   c2_risk_score_formula.1 db_ok 0 1 perf_ok record_db_ok,
   c2_risk_score_formula.2 10 (by norm_num)⟩

/-- C3 counterexample: the stored risk score is NOT always within [0, 100].
With credit_limit 10000 and a completed balance of 40000 (utilization 4) and
no repayments (payment ratio 0), the stored snapshot has risk_score 150. -/
theorem c3_counterexample :
    record_tradeline_performance db_over 0 1 = Except.ok (some perf_over) ∧
    perf_over.risk_score = 150 ∧ ¬ perf_over.risk_score ≤ 100 := by
  refine ⟨by rw [record_eq]; rfl, ?_, ?_⟩
  · norm_num [perf_over, mk_perf, db_over, tradeline_ok, allocation_ok,
      total_balance, completed_transactions, active_allocation_ids,
      active_allocations, transaction_volume, recent_transactions,
      eligible_repayments, total_repayments_amount, repayments_on_time_count,
      late_repayments, Repayment.is_late]
  · norm_num [perf_over, mk_perf, db_over, tradeline_ok, allocation_ok,
      total_balance, completed_transactions, active_allocation_ids,
      active_allocations, transaction_volume, recent_transactions,
      eligible_repayments, total_repayments_amount, repayments_on_time_count,
      late_repayments, Repayment.is_late]

/-- C3 (amended): the stored risk score lies in [0, 100] for every snapshot
whose utilization rate lies in [0, 1] and whose payment ratio is
non-negative (the source formula is not clamped, so utilization above 1 —
balance beyond the credit limit — pushes it above 100). -/
theorem c3_risk_score_bounded (db : DB) (now : Int) (tid : Nat)
    (p : TradelinePerformance)
    (hp : record_tradeline_performance db now tid = Except.ok (some p))
    (hu0 : 0 ≤ p.utilization_rate) (hu1 : p.utilization_rate ≤ 1)
    (hpr : 0 ≤ p.payment_ratio) :
    0 ≤ p.risk_score ∧ p.risk_score ≤ 100 := by
  rw [record_ok_risk_formula hp]
  have hlate0 : (0 : ℚ) ≤ (p.repayments_late : ℚ) * 10 := by positivity
  have hmin1 : min (40 : ℚ) ((p.repayments_late : ℚ) * 10) ≤ 40 := min_le_left _ _
  have hmin0 : (0 : ℚ) ≤ min (40 : ℚ) ((p.repayments_late : ℚ) * 10) :=
    le_min (by norm_num) hlate0
  have hmax0 : (0 : ℚ) ≤ max 0 (30 - p.payment_ratio * 30) := le_max_left _ _
  have hmax1 : max (0 : ℚ) (30 - p.payment_ratio * 30) ≤ 30 :=
    max_le (by norm_num) (by nlinarith)
  constructor <;> nlinarith

/-- Witness for C3 (amended): the 2500-balance snapshot has utilization 1/4,
payment ratio 0 and a risk score inside [0, 100]. -/
theorem c3_witness :
    0 ≤ perf_ok.utilization_rate ∧ perf_ok.utilization_rate ≤ 1 ∧
    0 ≤ perf_ok.payment_ratio ∧
    0 ≤ perf_ok.risk_score ∧ perf_ok.risk_score ≤ 100 := by
  have hu : perf_ok.utilization_rate = 1 / 4 := by
    simp only [perf_ok, mk_perf]
    rw [total_balance_db_ok, if_pos (by norm_num [tradeline_ok])]
    norm_num [tradeline_ok]
  have hpr : perf_ok.payment_ratio = 0 := by
    simp only [perf_ok, mk_perf]
    rw [total_balance_db_ok, if_pos (by norm_num)]
    norm_num [total_repayments_amount, eligible_repayments, db_ok]
  have h := c3_risk_score_bounded db_ok 0 1 perf_ok record_db_ok
    (by rw [hu]; norm_num) (by rw [hu]; norm_num) (by rw [hpr])
  exact ⟨by rw [hu]; norm_num, by rw [hu]; norm_num, by rw [hpr], h.1, h.2⟩

/-- C4: no input makes `record_tradeline_performance` raise
`ZeroDivisionError` (every division is guarded), and the guarded defaults
hold on every stored snapshot: utilization 0 when the tradeline's limit is
≤ 0, payment ratio 1 when the balance is ≤ 0. -/
theorem c4_division_guards (db : DB) (now : Int) (tid : Nat) :
    record_tradeline_performance db now tid ≠ Except.error PyErr.zeroDivisionError ∧
    ∀ (t : Tradeline) (p : TradelinePerformance),
      find_tradeline db tid = some t →
      record_tradeline_performance db now tid = Except.ok (some p) →
      (t.credit_limit ≤ 0 → p.utilization_rate = 0) ∧
      (p.current_balance ≤ 0 → p.payment_ratio = 1) := by
  constructor
  · rw [record_eq]
    split
    · simp
    · split_ifs <;> simp
  · intro t p hf hp
    obtain ⟨t', hf', rfl⟩ := record_ok_some hp
    have ht : t' = t := Option.some.inj (hf'.symm.trans hf)
    subst ht
    constructor
    · intro hle
      simp only [mk_perf]
      rw [if_neg (not_lt.mpr hle)]
    · intro hb
      simp only [mk_perf] at hb ⊢
      rw [if_neg (not_lt.mpr hb)]

/-- Witness for C4: the zero-limit store raises nothing and stores
utilization 0 and payment ratio 1. -/
theorem c4_witness :
    record_tradeline_performance db_zero 0 1 ≠ Except.error PyErr.zeroDivisionError ∧
    perf_zero.utilization_rate = 0 ∧ perf_zero.payment_ratio = 1 := by
  obtain ⟨hne, himp⟩ := c4_division_guards db_zero 0 1
  have h2 := himp tradeline_zero perf_zero rfl record_db_zero
  refine ⟨hne, h2.1 (by norm_num [tradeline_zero]), h2.2 ?_⟩
  simp [perf_zero, mk_perf, total_balance, completed_transactions, db_zero]

/-- C5: every stored snapshot's balance is the sum of the completed
transactions on the tradeline's active allocations, its available credit is
the limit minus that balance, and (for a positive limit) its utilization is
exactly balance divided by limit. -/
theorem c5_balance_availability_utilization (db : DB) (now : Int) (tid : Nat)
    (t : Tradeline) (p : TradelinePerformance)
    (hf : find_tradeline db tid = some t)
    (hp : record_tradeline_performance db now tid = Except.ok (some p)) :
    p.current_balance = total_balance db tid ∧
    p.available_credit = t.credit_limit - total_balance db tid ∧
    (0 < t.credit_limit → p.utilization_rate = total_balance db tid / t.credit_limit) := by
  obtain ⟨t', hf', rfl⟩ := record_ok_some hp
  have ht : t' = t := Option.some.inj (hf'.symm.trans hf)
  subst ht
  refine ⟨rfl, rfl, fun hpos => ?_⟩
  simp only [mk_perf]
  rw [if_pos hpos]

/-- Witness for C5: credit_limit 10000 with one completed 2500 transaction
yields balance 2500, available credit 7500 and utilization 1/4. -/
theorem c5_witness :
    perf_ok.current_balance = 2500 ∧ perf_ok.available_credit = 7500 ∧
    perf_ok.utilization_rate = 1 / 4 := by
  obtain ⟨hb, ha, hu⟩ :=
    c5_balance_availability_utilization db_ok 0 1 tradeline_ok perf_ok rfl record_db_ok
  refine ⟨by rw [hb, total_balance_db_ok], ?_, ?_⟩
  · rw [ha, total_balance_db_ok]
    norm_num [tradeline_ok]
  · rw [hu (by norm_num [tradeline_ok]), total_balance_db_ok]
    norm_num [tradeline_ok]

/-- C6: `record_tradeline_performance` returns `None` — creating no record
and raising nothing — exactly when the tradeline id matches no tradeline or
the tradeline has no active allocation.  (A created snapshot is modelled by
the `some` payload of a successful result, so a `none` result adds nothing
to the store.) -/
theorem c6_none_iff (db : DB) (now : Int) (tid : Nat) :
    record_tradeline_performance db now tid = Except.ok none ↔
      find_tradeline db tid = none ∨ (active_allocations db tid).isEmpty = true := by
  rw [record_eq]
  cases hf : find_tradeline db tid with
  | none => simp
  | some t =>
    by_cases h1 : (active_allocations db tid).isEmpty
    · simp [alloc_ids_isEmpty, h1]
    · simp only [alloc_ids_isEmpty, h1, if_false]
      split_ifs <;> simp_all

/-- Witness for C6: a tradeline with no allocation yields `None`. -/
theorem c6_witness : record_tradeline_performance db_noalloc 0 1 = Except.ok none :=
  (c6_none_iff db_noalloc 0 1).mpr (Or.inr rfl)

/-- C7: when the stored `credit_score_history` is a non-JSON string,
`update_credit_score` still succeeds, reads the existing history as empty and
leaves behind exactly one entry — the newly computed score. -/
theorem c7_malformed_history_reset (db : DB) (now : Int) (a : AIAgent)
    (h : a.credit_score_history = HistoryField.malformed) :
    parse_history a.credit_score_history = [] ∧
    parse_history ((a.update_credit_score db now).1.credit_score_history) =
      [{ timestamp := now
         score := (calculate_agent_credit_score (build_agent_data db a)).score
         components := (calculate_agent_credit_score (build_agent_data db a)).components }] := by
  constructor
  · rw [h]; rfl
  · simp [AIAgent.update_credit_score, track_agent_score_history, parse_history, h]

/-- Witness for C7: an agent with a malformed history field ends with the
single baseline entry after one update. -/
theorem c7_witness :
    agent_malformed.credit_score_history = HistoryField.malformed ∧
    parse_history ((agent_malformed.update_credit_score db_nil 100).1.credit_score_history) =
      [{ timestamp := 100, score := 600, components := [] }] :=
  ⟨rfl, (c7_malformed_history_reset db_nil 100 agent_malformed rfl).2⟩

/-- C8: the score history is strictly append-only — after `N` calls to
`update_credit_score` the parsed history is the old parsed history followed
by exactly `N` new entries (so its length grows by `N` and no old entry is
modified or removed). -/
theorem c8_history_append_only (db : DB) (now : Int) (a : AIAgent) (n : Nat) :
    ∃ tail : List HistoryEntry,
      parse_history ((update_credit_score_iter db now n a).credit_score_history) =
        parse_history a.credit_score_history ++ tail ∧ tail.length = n := by
  induction n generalizing a with
  | zero => exact ⟨[], by simp [update_credit_score_iter]⟩
  | succ k ih =>
    obtain ⟨t, ht, hl⟩ := ih ((a.update_credit_score db now).1)
    refine ⟨{ timestamp := now
              score := (calculate_agent_credit_score (build_agent_data db a)).score
              components := (calculate_agent_credit_score (build_agent_data db a)).components }
            :: t, ?_, by simp [hl]⟩
    show parse_history ((update_credit_score_iter db now k
        ((a.update_credit_score db now).1)).credit_score_history) = _
    rw [ht]
    have hstep : parse_history ((a.update_credit_score db now).1.credit_score_history) =
        parse_history a.credit_score_history ++
          [{ timestamp := now
             score := (calculate_agent_credit_score (build_agent_data db a)).score
             components := (calculate_agent_credit_score (build_agent_data db a)).components }] := by
      simp [AIAgent.update_credit_score, track_agent_score_history, parse_history]
    rw [hstep, List.append_assoc]
    rfl

/-- C9: `get_credit_score_trend` returns `None` exactly for a parsed history
of fewer than two entries, and for two or more entries returns the
delta-based trend of that history. -/
theorem c9_trend_none_iff (a : AIAgent) :
    (a.get_credit_score_trend = none ↔
      (parse_history a.credit_score_history).length < 2) ∧
    (2 ≤ (parse_history a.credit_score_history).length →
      a.get_credit_score_trend =
        some (analyze_score_trend (parse_history a.credit_score_history))) := by
  unfold AIAgent.get_credit_score_trend
  by_cases h2 : (parse_history a.credit_score_history).length < 2
  · have hc : ((parse_history a.credit_score_history).isEmpty
        || decide ((parse_history a.credit_score_history).length < 2)) = true := by
      simp [h2]
    rw [if_pos hc]
    exact ⟨by simp [h2], fun h => absurd h (by omega)⟩
  · have hne : (parse_history a.credit_score_history).isEmpty = false := by
      cases hl : parse_history a.credit_score_history with
      | nil => rw [hl] at h2; simp at h2
      | cons x xs => rfl
    have hc : ((parse_history a.credit_score_history).isEmpty
        || decide ((parse_history a.credit_score_history).length < 2)) = false := by
      simp [hne, h2]
    rw [if_neg (by simp [hc])]
    exact ⟨by simp [h2], fun _ => rfl⟩

/-- Witness for C9: a two-entry history (600 then 620) yields the trend with
summed consecutive delta 20. -/
theorem c9_witness :
    agent_two_entries.get_credit_score_trend =
      some (analyze_score_trend (parse_history agent_two_entries.credit_score_history)) ∧
    (analyze_score_trend (parse_history agent_two_entries.credit_score_history)).change = 20 := by
  refine ⟨(c9_trend_none_iff agent_two_entries).2 (by decide), ?_⟩
  decide

/-- C10: a repayment missing either date is never late — `Repayment.is_late`
returns `False` without raising, and the inline `is_late` flag computed by
`update_credit_score` (`repayment_late_flag`, used in `repayment_summary`
inside `build_agent_data`) is likewise `False`. -/
theorem c10_missing_dates_not_late (r : Repayment)
    (h : r.payment_date = none ∨ r.due_date = none) :
    r.is_late = false ∧ repayment_late_flag r = false ∧
    (repayment_summary r).is_late = false := by
  cases hp : r.payment_date <;> cases hd : r.due_date <;>
    simp_all [Repayment.is_late, repayment_late_flag, repayment_summary]

/-- Witness for C10: a scheduled repayment with no payment date is not late. -/
theorem c10_witness :
    repayment_nodate.is_late = false ∧ repayment_late_flag repayment_nodate = false ∧
    (repayment_summary repayment_nodate).is_late = false :=
  c10_missing_dates_not_late repayment_nodate (Or.inl rfl)

end TradelineAI
